import Mathlib

/-!
Verification of `src/myCobot/joystick_control_mycobot.py`.

The program is a three-stage pipeline: `Joystick_Detector` polls XInput events,
`Joystick_Signal_Adapter` accumulates them and notifies listeners every 0.1 s,
and `Customized_MyCobot` reacts to each snapshot with at most one actuator
command.  We give a shallow embedding of the pure decision logic (button sets
as `List String` with set semantics, angles as `ℚ`, LED channels as `ℤ`),
model actuator side effects as an emitted `Command` list, Python exceptions as
`Except`, and the shutdown sequence of `main` as an event trace.
-/

deriving instance DecidableEq for Except

namespace JoystickControl

/-- Python exceptions that the program raises. -/
inductive PyExc where
  | KeyboardInterrupt (msg : String)
  | KeyError (key : String)
deriving DecidableEq, Repr

/-- One snapshot of joystick signals, the dict built by
`Joystick_Signal_Adapter.notify`: `{'buttons': set, 'triggers': [L, R],
'sticks': [(xL, yL), (xR, yR)]}`.  The button set is modelled as a list
managed with set semantics (membership-guarded insert/erase). -/
structure Signals where
  buttons : List String
  triggers : List ℚ
  sticks : List (ℚ × ℚ)
deriving DecidableEq, Repr

/-- One call into the actuator API (`pymycobot`): `send_angles`,
`send_angle`, `stop`, `set_color`. -/
inductive Command where
  | send_angles (degrees : List ℚ) (speed : ℕ)
  | send_angle (joint : ℕ) (degree : ℚ) (speed : ℕ)
  | stop
  | set_color (r g b : ℤ)
deriving DecidableEq, Repr

namespace Customized_MyCobot

/-- `Customized_MyCobot._MIN_ANGLES = [-160, -100, -150, -150, -160, -180]`. -/
def MIN_ANGLES : List ℚ := [-160, -100, -150, -150, -160, -180]

/-- `Customized_MyCobot._MAX_ANGLES = [160, 100, 150, 150, 160, 180]`. -/
def MAX_ANGLES : List ℚ := [160, 100, 150, 150, 160, 180]

/-- The mutable state of `Customized_MyCobot`: the LED color `(r, g, b)`
(initially `(0, 255, 0)`) and the selected joint number (initially `1`). -/
structure State where
  color : ℤ × ℤ × ℤ
  joint : ℕ
deriving DecidableEq, Repr

/-- The color set by `Customized_MyCobot.next_color`:

```python
r, g, b = self.color
if r == 0 and g > 0:
    g = max(g - 32, 0); b = 255 - g
elif g == 0 and b > 0:
    b = max(b - 32, 0); r = 255 - b
elif b == 0 and r > 0:
    r = max(r - 32, 0); g = 255 - r
self.color = (r, g, b)
``` -/
def next_color (c : ℤ × ℤ × ℤ) : ℤ × ℤ × ℤ :=
  let r := c.1
  let g := c.2.1
  let b := c.2.2
  if r = 0 ∧ 0 < g then
    let g1 := max (g - 32) 0
    (r, g1, 255 - g1)
  else if g = 0 ∧ 0 < b then
    let b1 := max (b - 32) 0
    (255 - b1, g, b1)
  else if b = 0 ∧ 0 < r then
    let r1 := max (r - 32) 0
    (r1, 255 - r1, b)
  else
    (r, g, b)

/-- `Customized_MyCobot.go_sleep` sends this posture at speed 50:
`self.send_angles([83, 140, -150, 154, 87, 0], 50)`. -/
def sleep_posture : List ℚ := [83, 140, -150, 154, 87, 0]

/-- `Customized_MyCobot._get_combination_action`: returns `"end_program"`
when LEFT_SHOULDER, RIGHT_SHOULDER, START and BACK are all pressed,
otherwise (implicitly) `None`. -/
def get_combination_action (signals : Signals) : Option String :=
  if "LEFT_SHOULDER" ∈ signals.buttons ∧ "RIGHT_SHOULDER" ∈ signals.buttons ∧
      "START" ∈ signals.buttons ∧ "BACK" ∈ signals.buttons then
    some "end_program"
  else
    none

/-- Target angle of the DPAD_LEFT branch: for joint 6 the reported angle
minus 179, plus 360 once if below −180; otherwise the static minimum.
`angles` is the list returned by `self.get_angles()`. -/
def dpad_left_theta (s : State) (angles : List ℚ) : ℚ :=
  if s.joint = 6 then
    let t := angles.getD (s.joint - 1) 0 - 179
    if t < -180 then t + 360 else t
  else
    MIN_ANGLES.getD (s.joint - 1) 0

/-- Target angle of the DPAD_RIGHT branch: for joint 6 the reported angle
plus 179, minus 360 once if above 180; otherwise the static maximum. -/
def dpad_right_theta (s : State) (angles : List ℚ) : ℚ :=
  if s.joint = 6 then
    let t := angles.getD (s.joint - 1) 0 + 179
    if 180 < t then t - 360 else t
  else
    MAX_ANGLES.getD (s.joint - 1) 0

/-- `Customized_MyCobot.update(signals)`: the priority if/elif chain.
Returns the new state and the actuator commands issued during the call, or
the raised `KeyboardInterrupt`.  `angles` stands for the value
`self.get_angles()` would report during this call. -/
def update (s : State) (angles : List ℚ) (signals : Signals) :
    Except PyExc (State × List Command) :=
  if 0 < signals.buttons.length then
    if get_combination_action signals = some "end_program" then
      .error (.KeyboardInterrupt "")
    else if "A" ∈ signals.buttons then
      .ok (s, [.send_angles [0, 0, 0, 0, 0, 0] 50])
    else if "B" ∈ signals.buttons then
      .ok (s, [.send_angles [83, 140, -150, 154, 87, 0] 50])
    else if "X" ∈ signals.buttons then
      .ok (s, [.stop])
    else if "Y" ∈ signals.buttons then
      let c := next_color s.color
      .ok ({ s with color := c }, [.set_color c.1 c.2.1 c.2.2])
    else if "DPAD_LEFT" ∈ signals.buttons then
      .ok (s, [.send_angle s.joint (dpad_left_theta s angles) 10])
    else if "DPAD_RIGHT" ∈ signals.buttons then
      .ok (s, [.send_angle s.joint (dpad_right_theta s angles) 10])
    else if "LEFT_SHOULDER" ∈ signals.buttons then
      .ok ({ s with joint := if s.joint = 1 then 6 else s.joint - 1 }, [])
    else if "RIGHT_SHOULDER" ∈ signals.buttons then
      .ok ({ s with joint := if s.joint = 6 then 1 else s.joint + 1 }, [])
    else
      .ok (s, [])
  else
    .ok (s, [])

end Customized_MyCobot

namespace Joystick_Signal_Adapter

/-- An `XInput` event as seen by `Joystick_Signal_Adapter.update`, carrying
the originating controller's `user_index`. -/
inductive Event where
  | BUTTON_PRESSED (user_index : ℕ) (button : String)
  | BUTTON_RELEASED (user_index : ℕ) (button : String)
  | TRIGGER_MOVED (user_index : ℕ) (trigger : ℕ) (value : ℚ)
  | STICK_MOVED (user_index : ℕ) (stick : ℕ) (dir : ℚ × ℚ)
deriving DecidableEq, Repr

/-- The accumulated state of `Joystick_Signal_Adapter`: `pressed_button`
(a Python `set`, modelled as a duplicate-free list), `trigger_values`
(initially `[0, 0]`) and `stick_values` (initially `[(0, 0), (0, 0)]`). -/
structure AdapterState where
  pressed_button : List String
  trigger_values : List ℚ
  stick_values : List (ℚ × ℚ)
deriving DecidableEq, Repr

/-- `Joystick_Signal_Adapter.update(e)`: events from other controller
indices are discarded; a press does `pressed_button.add`, a release does
`pressed_button.remove` — which, as Python's `set.remove`, raises
`KeyError` when the member is absent — and trigger/stick moves overwrite
the indexed slot. -/
def update (a : AdapterState) (e : Event) : Except PyExc AdapterState :=
  match e with
  | .BUTTON_PRESSED i b =>
    if i ≠ 0 then .ok a
    else .ok { a with pressed_button := a.pressed_button.insert b }
  | .BUTTON_RELEASED i b =>
    if i ≠ 0 then .ok a
    else if b ∈ a.pressed_button then
      .ok { a with pressed_button := a.pressed_button.erase b }
    else
      .error (.KeyError b)
  | .TRIGGER_MOVED i t v =>
    if i ≠ 0 then .ok a
    else .ok { a with trigger_values := a.trigger_values.set t v }
  | .STICK_MOVED i st d =>
    if i ≠ 0 then .ok a
    else .ok { a with stick_values := a.stick_values.set st d }

/-- `Joystick_Signal_Adapter.run`, specialised to the wiring of `main`
where the one registered observer is the `Customized_MyCobot`: each tick
notifies the current snapshot to `Customized_MyCobot.update`; when that
raises, the loop catches the exception, stores it in
`self.keyboard_interrupt`, and exits, processing no further tick.
The environment supplies, per tick, the angles `get_angles()` would report
and the snapshot for that tick; the result is the per-tick command lists,
the stored exception, and the final controller state. -/
def run_ticks (s : Customized_MyCobot.State) :
    List (List ℚ × Signals) →
      List (List Command) × Option PyExc × Customized_MyCobot.State
  | [] => ([], none, s)
  | (angles, sig) :: rest =>
    match Customized_MyCobot.update s angles sig with
    | .error e => ([], some e, s)
    | .ok (s1, cmds) =>
      let r := run_ticks s1 rest
      (cmds :: r.1, r.2.1, r.2.2)

end Joystick_Signal_Adapter

namespace PyHeap

/-!
Reference semantics of `Joystick_Signal_Adapter.notify`.  In the source,

```python
signals = {'buttons': self.pressed_button, ...}
super().notify(signals)
```

stores the adapter's own `set` object in the published dict — Python passes
the reference, not a copy.  To reason about aliasing we model the heap of
set objects explicitly: a snapshot holds a reference (heap index) into the
store, exactly as the dict holds a reference to `self.pressed_button`.
-/

/-- The heap of Python `set` objects, addressed by index. -/
structure Heap where
  sets : List (List String)
deriving DecidableEq, Repr

/-- The published dict's `'buttons'` entry: a reference to a set object. -/
structure SnapshotRef where
  buttons_ref : ℕ
deriving DecidableEq, Repr

/-- `notify` builds the snapshot from the adapter's `pressed_button`
reference: the dict receives the same reference (`{'buttons':
self.pressed_button}`), no copy is made. -/
def notify_snapshot (pressed_button_ref : ℕ) : SnapshotRef :=
  ⟨pressed_button_ref⟩

/-- Dereference a published snapshot's button set in the current heap. -/
def read_buttons (h : Heap) (snap : SnapshotRef) : List String :=
  h.sets.getD snap.buttons_ref []

/-- `Joystick_Signal_Adapter.update` on a press event mutates the set
object behind `pressed_button` in place (`self.pressed_button.add(b)`). -/
def press_mutation (h : Heap) (pressed_button_ref : ℕ) (b : String) : Heap :=
  ⟨h.sets.set pressed_button_ref
    ((h.sets.getD pressed_button_ref []).insert b)⟩

end PyHeap

namespace Main

/-- One observable step of `main`: disregistering a listener, killing a
thread, an actuator API call, or a one-second sleep of the countdown. -/
inductive MainEvent where
  | disregister (subject listener : String)
  | kill_thread (thread : String)
  | send_angles (degrees : List ℚ) (speed : ℕ)
  | sleep_seconds (n : ℕ)
  | release_all_servos
deriving DecidableEq, Repr

/-- Why `main`'s supervising loop left its `try` block: a `KeyboardInterrupt`
delivered to the main thread, or the adapter's stored exception re-raised by
the polling loop. -/
inductive TermReason where
  | external_interrupt
  | stored_signal (e : PyExc)
deriving DecidableEq, Repr

/-- Event trace of `Customized_MyCobot.go_sleep()`:
`self.send_angles([83, 140, -150, 154, 87, 0], 50)`. -/
def go_sleep_trace : List MainEvent :=
  [.send_angles Customized_MyCobot.sleep_posture 50]

/-- Event trace of `main`'s `finally` block: disregister both listeners,
kill both threads, `mc.go_sleep()`, ten one-second countdown sleeps, then
`mc.release_all_servos()`. -/
def finally_trace : List MainEvent :=
  [.disregister "Joysticks Detector" "Joystick Signal Adapter",
    .disregister "Joystick Signal Adapter" "Customized MyCobot",
    .kill_thread "Joysticks Detector",
    .kill_thread "Joystick Signal Adapter"]
    ++ go_sleep_trace
    ++ List.replicate 10 (.sleep_seconds 1)
    ++ [.release_all_servos]

/-- The shutdown trace of `main` for a given termination reason.  Both the
external `KeyboardInterrupt` and the stored in-band signal are caught by the
same `except KeyboardInterrupt` clause, and the `finally` block runs
unconditionally in either case. -/
def main_shutdown (r : TermReason) : List MainEvent :=
  match r with
  | .external_interrupt => finally_trace
  | .stored_signal _ => finally_trace

/-- Total seconds slept by a trace. -/
def total_sleep (t : List MainEvent) : ℕ :=
  (t.map fun e => match e with | .sleep_seconds n => n | _ => 0).sum

end Main

end JoystickControl

namespace JoystickControl

/-- The spec's strict priority table over recognized action buttons
(§4.3), highest first. -/
def action_priority : List String :=
  ["A", "B", "X", "Y", "DPAD_LEFT", "DPAD_RIGHT", "LEFT_SHOULDER", "RIGHT_SHOULDER"]

/-- The highest-priority recognized action button among those pressed,
per the spec's priority table. -/
def highest_priority_button (buttons : List String) : Option String :=
  action_priority.find? fun b => decide (b ∈ buttons)

namespace Customized_MyCobot

lemma buttons_length_pos {b : String} {sig : Signals} (h : b ∈ sig.buttons) :
    0 < sig.buttons.length :=
  List.length_pos.mpr (List.ne_nil_of_mem h)

lemma combination_none_of_not_LS {sig : Signals}
    (h : "LEFT_SHOULDER" ∉ sig.buttons) :
    get_combination_action sig = none := by
  simp only [get_combination_action, ite_eq_right_iff]
  intro hc
  exact absurd hc.1 h

lemma update_of_A {sig : Signals} (s : State) (angles : List ℚ)
    (hc : get_combination_action sig = none) (hA : "A" ∈ sig.buttons) :
    update s angles sig = .ok (s, [.send_angles [0, 0, 0, 0, 0, 0] 50]) := by
  rw [update, if_pos (buttons_length_pos hA), hc]
  simp [hA]

lemma update_of_B {sig : Signals} (s : State) (angles : List ℚ)
    (hc : get_combination_action sig = none)
    (hA : "A" ∉ sig.buttons) (hB : "B" ∈ sig.buttons) :
    update s angles sig = .ok (s, [.send_angles [83, 140, -150, 154, 87, 0] 50]) := by
  rw [update, if_pos (buttons_length_pos hB), hc]
  simp [hA, hB]

lemma update_of_X {sig : Signals} (s : State) (angles : List ℚ)
    (hc : get_combination_action sig = none)
    (hA : "A" ∉ sig.buttons) (hB : "B" ∉ sig.buttons) (hX : "X" ∈ sig.buttons) :
    update s angles sig = .ok (s, [.stop]) := by
  rw [update, if_pos (buttons_length_pos hX), hc]
  simp [hA, hB, hX]

lemma update_of_Y {sig : Signals} (s : State) (angles : List ℚ)
    (hc : get_combination_action sig = none)
    (hA : "A" ∉ sig.buttons) (hB : "B" ∉ sig.buttons) (hX : "X" ∉ sig.buttons)
    (hY : "Y" ∈ sig.buttons) :
    update s angles sig =
      .ok ({ s with color := next_color s.color },
        [.set_color (next_color s.color).1 (next_color s.color).2.1
          (next_color s.color).2.2]) := by
  rw [update, if_pos (buttons_length_pos hY), hc]
  simp [hA, hB, hX, hY]

lemma update_of_DL {sig : Signals} (s : State) (angles : List ℚ)
    (hc : get_combination_action sig = none)
    (hA : "A" ∉ sig.buttons) (hB : "B" ∉ sig.buttons) (hX : "X" ∉ sig.buttons)
    (hY : "Y" ∉ sig.buttons) (hDL : "DPAD_LEFT" ∈ sig.buttons) :
    update s angles sig = .ok (s, [.send_angle s.joint (dpad_left_theta s angles) 10]) := by
  rw [update, if_pos (buttons_length_pos hDL), hc]
  simp [hA, hB, hX, hY, hDL]

lemma update_of_DR {sig : Signals} (s : State) (angles : List ℚ)
    (hc : get_combination_action sig = none)
    (hA : "A" ∉ sig.buttons) (hB : "B" ∉ sig.buttons) (hX : "X" ∉ sig.buttons)
    (hY : "Y" ∉ sig.buttons) (hDL : "DPAD_LEFT" ∉ sig.buttons)
    (hDR : "DPAD_RIGHT" ∈ sig.buttons) :
    update s angles sig = .ok (s, [.send_angle s.joint (dpad_right_theta s angles) 10]) := by
  rw [update, if_pos (buttons_length_pos hDR), hc]
  simp [hA, hB, hX, hY, hDL, hDR]

lemma update_of_LS {sig : Signals} (s : State) (angles : List ℚ)
    (hc : get_combination_action sig = none)
    (hA : "A" ∉ sig.buttons) (hB : "B" ∉ sig.buttons) (hX : "X" ∉ sig.buttons)
    (hY : "Y" ∉ sig.buttons) (hDL : "DPAD_LEFT" ∉ sig.buttons)
    (hDR : "DPAD_RIGHT" ∉ sig.buttons) (hLS : "LEFT_SHOULDER" ∈ sig.buttons) :
    update s angles sig =
      .ok ({ s with joint := if s.joint = 1 then 6 else s.joint - 1 }, []) := by
  rw [update, if_pos (buttons_length_pos hLS), hc]
  simp [hA, hB, hX, hY, hDL, hDR, hLS]

lemma update_of_RS {sig : Signals} (s : State) (angles : List ℚ)
    (hc : get_combination_action sig = none)
    (hA : "A" ∉ sig.buttons) (hB : "B" ∉ sig.buttons) (hX : "X" ∉ sig.buttons)
    (hY : "Y" ∉ sig.buttons) (hDL : "DPAD_LEFT" ∉ sig.buttons)
    (hDR : "DPAD_RIGHT" ∉ sig.buttons) (hLS : "LEFT_SHOULDER" ∉ sig.buttons)
    (hRS : "RIGHT_SHOULDER" ∈ sig.buttons) :
    update s angles sig =
      .ok ({ s with joint := if s.joint = 6 then 1 else s.joint + 1 }, []) := by
  rw [update, if_pos (buttons_length_pos hRS), hc]
  simp [hA, hB, hX, hY, hDL, hDR, hLS, hRS]

lemma update_of_no_action {sig : Signals} (s : State) (angles : List ℚ)
    (hA : "A" ∉ sig.buttons) (hB : "B" ∉ sig.buttons) (hX : "X" ∉ sig.buttons)
    (hY : "Y" ∉ sig.buttons) (hDL : "DPAD_LEFT" ∉ sig.buttons)
    (hDR : "DPAD_RIGHT" ∉ sig.buttons) (hLS : "LEFT_SHOULDER" ∉ sig.buttons)
    (hRS : "RIGHT_SHOULDER" ∉ sig.buttons) :
    update s angles sig = .ok (s, []) := by
  rw [update]
  by_cases hlen : 0 < sig.buttons.length
  · rw [if_pos hlen, combination_none_of_not_LS hLS]
    simp [hA, hB, hX, hY, hDL, hDR, hLS, hRS]
  · rw [if_neg hlen]

lemma combination_none_of_not_RS {sig : Signals}
    (h : "RIGHT_SHOULDER" ∉ sig.buttons) :
    get_combination_action sig = none := by
  simp only [get_combination_action, ite_eq_right_iff]
  intro hc
  exact absurd hc.2.1 h

end Customized_MyCobot

open Customized_MyCobot

/-- C1: when the termination combination is not triggered and at least one
recognized action button is pressed, `Customized_MyCobot.update` behaves
exactly as if only the highest-priority pressed button (in the order
A > B > X > Y > DPAD_LEFT > DPAD_RIGHT > LEFT_SHOULDER > RIGHT_SHOULDER)
were pressed: all lower-priority buttons in the same snapshot have no
effect on the resulting state and on the issued actuator command. -/
theorem C1_highest_priority_action
    (s : State) (angles : List ℚ) (sig : Signals) (btn : String)
    (hcombo : get_combination_action sig = none)
    (hbtn : highest_priority_button sig.buttons = some btn) :
    update s angles sig = update s angles ⟨[btn], sig.triggers, sig.sticks⟩ := by
  by_cases hA : "A" ∈ sig.buttons
  · have hb : btn = "A" := by
      simp [highest_priority_button, action_priority, List.find?, hA] at hbtn
      exact hbtn.symm
    subst hb
    rw [update_of_A s angles hcombo hA,
      update_of_A s angles (combination_none_of_not_LS (by simp)) (by simp)]
  · by_cases hB : "B" ∈ sig.buttons
    · have hb : btn = "B" := by
        simp [highest_priority_button, action_priority, List.find?, hA, hB] at hbtn
        exact hbtn.symm
      subst hb
      rw [update_of_B s angles hcombo hA hB,
        update_of_B s angles (combination_none_of_not_LS (by simp)) (by simp)
          (by simp)]
    · by_cases hX : "X" ∈ sig.buttons
      · have hb : btn = "X" := by
          simp [highest_priority_button, action_priority, List.find?, hA, hB, hX] at hbtn
          exact hbtn.symm
        subst hb
        rw [update_of_X s angles hcombo hA hB hX,
          update_of_X s angles (combination_none_of_not_LS (by simp)) (by simp)
            (by simp) (by simp)]
      · by_cases hY : "Y" ∈ sig.buttons
        · have hb : btn = "Y" := by
            simp [highest_priority_button, action_priority, List.find?,
              hA, hB, hX, hY] at hbtn
            exact hbtn.symm
          subst hb
          rw [update_of_Y s angles hcombo hA hB hX hY,
            update_of_Y s angles (combination_none_of_not_LS (by simp)) (by simp)
              (by simp) (by simp) (by simp)]
        · by_cases hDL : "DPAD_LEFT" ∈ sig.buttons
          · have hb : btn = "DPAD_LEFT" := by
              simp [highest_priority_button, action_priority, List.find?,
                hA, hB, hX, hY, hDL] at hbtn
              exact hbtn.symm
            subst hb
            rw [update_of_DL s angles hcombo hA hB hX hY hDL,
              update_of_DL s angles (combination_none_of_not_LS (by simp)) (by simp)
                (by simp) (by simp) (by simp) (by simp)]
          · by_cases hDR : "DPAD_RIGHT" ∈ sig.buttons
            · have hb : btn = "DPAD_RIGHT" := by
                simp [highest_priority_button, action_priority, List.find?,
                  hA, hB, hX, hY, hDL, hDR] at hbtn
                exact hbtn.symm
              subst hb
              rw [update_of_DR s angles hcombo hA hB hX hY hDL hDR,
                update_of_DR s angles (combination_none_of_not_LS (by simp))
                  (by simp) (by simp) (by simp) (by simp) (by simp)
                  (by simp)]
            · by_cases hLS : "LEFT_SHOULDER" ∈ sig.buttons
              · have hb : btn = "LEFT_SHOULDER" := by
                  simp [highest_priority_button, action_priority, List.find?,
                    hA, hB, hX, hY, hDL, hDR, hLS] at hbtn
                  exact hbtn.symm
                subst hb
                rw [update_of_LS s angles hcombo hA hB hX hY hDL hDR hLS,
                  update_of_LS s angles (combination_none_of_not_RS (by simp))
                    (by simp) (by simp) (by simp) (by simp) (by simp)
                    (by simp) (by simp)]
              · by_cases hRS : "RIGHT_SHOULDER" ∈ sig.buttons
                · have hb : btn = "RIGHT_SHOULDER" := by
                    simp [highest_priority_button, action_priority, List.find?,
                      hA, hB, hX, hY, hDL, hDR, hLS, hRS] at hbtn
                    exact hbtn.symm
                  subst hb
                  rw [update_of_RS s angles hcombo hA hB hX hY hDL hDR hLS hRS,
                    update_of_RS s angles (combination_none_of_not_LS (by simp))
                      (by simp) (by simp) (by simp) (by simp) (by simp)
                      (by simp) (by simp) (by simp)]
                · simp [highest_priority_button, action_priority, List.find?,
                    hA, hB, hX, hY, hDL, hDR, hLS, hRS] at hbtn

/-- Witness for C1 at the snapshot with buttons `{A, Y}`: only the STAND
action is performed, exactly as if only `A` were pressed. -/
theorem C1_highest_priority_action_witness :
    get_combination_action ⟨["A", "Y"], [0, 0], [(0, 0), (0, 0)]⟩ = none ∧
    highest_priority_button ["A", "Y"] = some "A" ∧
    update ⟨(0, 255, 0), 1⟩ [0, 0, 0, 0, 0, 0] ⟨["A", "Y"], [0, 0], [(0, 0), (0, 0)]⟩ =
      update ⟨(0, 255, 0), 1⟩ [0, 0, 0, 0, 0, 0] ⟨["A"], [0, 0], [(0, 0), (0, 0)]⟩ :=
  ⟨by decide, by decide,
    C1_highest_priority_action ⟨(0, 255, 0), 1⟩ [0, 0, 0, 0, 0, 0]
      ⟨["A", "Y"], [0, 0], [(0, 0), (0, 0)]⟩ "A" (by decide) (by decide)⟩

/-- C2: when LEFT_SHOULDER, RIGHT_SHOULDER, START and BACK are all pressed,
`Customized_MyCobot.update` raises `KeyboardInterrupt` and issues no
actuator command, and the adapter's clock loop run on that snapshot emits
no command, stores the exception, and processes none of the remaining
ticks. -/
theorem C2_termination_combo
    (s : State) (angles : List ℚ) (sig : Signals)
    (rest : List (List ℚ × Signals))
    (hLS : "LEFT_SHOULDER" ∈ sig.buttons) (hRS : "RIGHT_SHOULDER" ∈ sig.buttons)
    (hST : "START" ∈ sig.buttons) (hBK : "BACK" ∈ sig.buttons) :
    update s angles sig = .error (.KeyboardInterrupt "") ∧
    Joystick_Signal_Adapter.run_ticks s ((angles, sig) :: rest) =
      ([], some (.KeyboardInterrupt ""), s) := by
  have hcombo : get_combination_action sig = some "end_program" := by
    simp [get_combination_action, hLS, hRS, hST, hBK]
  have hupd : update s angles sig = .error (.KeyboardInterrupt "") := by
    rw [update, if_pos (buttons_length_pos hLS), hcombo]
    simp
  exact ⟨hupd, by simp [Joystick_Signal_Adapter.run_ticks, hupd]⟩

/-- Witness for C2 at the snapshot pressing exactly the 4-combo buttons,
with one further tick pending. -/
theorem C2_termination_combo_witness :
    update ⟨(0, 255, 0), 1⟩ [0, 0, 0, 0, 0, 0]
      ⟨["LEFT_SHOULDER", "RIGHT_SHOULDER", "START", "BACK"], [0, 0], [(0, 0), (0, 0)]⟩ =
      .error (.KeyboardInterrupt "") ∧
    Joystick_Signal_Adapter.run_ticks ⟨(0, 255, 0), 1⟩
      [([0, 0, 0, 0, 0, 0],
        ⟨["LEFT_SHOULDER", "RIGHT_SHOULDER", "START", "BACK"], [0, 0], [(0, 0), (0, 0)]⟩),
       ([0, 0, 0, 0, 0, 0], ⟨["A"], [0, 0], [(0, 0), (0, 0)]⟩)] =
      ([], some (.KeyboardInterrupt ""), ⟨(0, 255, 0), 1⟩) :=
  C2_termination_combo ⟨(0, 255, 0), 1⟩ [0, 0, 0, 0, 0, 0]
    ⟨["LEFT_SHOULDER", "RIGHT_SHOULDER", "START", "BACK"], [0, 0], [(0, 0), (0, 0)]⟩
    [([0, 0, 0, 0, 0, 0], ⟨["A"], [0, 0], [(0, 0), (0, 0)]⟩)]
    (by decide) (by decide) (by decide) (by decide)

/-- C3 counterexample: the snapshot pressing only LEFT_SHOULDER is neither
an idle tick nor the termination combo, yet the branch taken issues zero
actuator commands (the command list of the result is empty, not of length
one): the joint-select branches only mutate `self.joint`. -/
theorem C3_counterexample :
    update ⟨(0, 255, 0), 1⟩ [0, 0, 0, 0, 0, 0]
      ⟨["LEFT_SHOULDER"], [0, 0], [(0, 0), (0, 0)]⟩ =
      .ok (⟨(0, 255, 0), 6⟩, []) := by
  decide

/-- C3 amended: on every non-idle, non-termination snapshot, `update`
returns normally and issues at most one actuator command; it issues exactly
one iff one of the six command-issuing buttons (A, B, X, Y, DPAD_LEFT,
DPAD_RIGHT) is pressed, and zero commands otherwise — in particular the
LEFT_SHOULDER / RIGHT_SHOULDER joint-select branches issue none. -/
theorem C3_amended_at_most_one_command
    (s : State) (angles : List ℚ) (sig : Signals)
    (hcombo : get_combination_action sig = none)
    (_hne : 0 < sig.buttons.length) :
    ∃ s1 cmds, update s angles sig = .ok (s1, cmds) ∧ cmds.length ≤ 1 ∧
      (cmds.length = 1 ↔
        ("A" ∈ sig.buttons ∨ "B" ∈ sig.buttons ∨ "X" ∈ sig.buttons ∨
          "Y" ∈ sig.buttons ∨ "DPAD_LEFT" ∈ sig.buttons ∨
          "DPAD_RIGHT" ∈ sig.buttons)) := by
  by_cases hA : "A" ∈ sig.buttons
  · exact ⟨s, _, update_of_A s angles hcombo hA, by simp, by simp [hA]⟩
  · by_cases hB : "B" ∈ sig.buttons
    · exact ⟨s, _, update_of_B s angles hcombo hA hB, by simp, by simp [hB]⟩
    · by_cases hX : "X" ∈ sig.buttons
      · exact ⟨s, _, update_of_X s angles hcombo hA hB hX, by simp, by simp [hX]⟩
      · by_cases hY : "Y" ∈ sig.buttons
        · exact ⟨_, _, update_of_Y s angles hcombo hA hB hX hY, by simp, by simp [hY]⟩
        · by_cases hDL : "DPAD_LEFT" ∈ sig.buttons
          · exact ⟨s, _, update_of_DL s angles hcombo hA hB hX hY hDL, by simp,
              by simp [hDL]⟩
          · by_cases hDR : "DPAD_RIGHT" ∈ sig.buttons
            · exact ⟨s, _, update_of_DR s angles hcombo hA hB hX hY hDL hDR, by simp,
                by simp [hDR]⟩
            · by_cases hLS : "LEFT_SHOULDER" ∈ sig.buttons
              · exact ⟨_, _, update_of_LS s angles hcombo hA hB hX hY hDL hDR hLS,
                  by simp, by simp [hA, hB, hX, hY, hDL, hDR]⟩
              · by_cases hRS : "RIGHT_SHOULDER" ∈ sig.buttons
                · exact ⟨_, _, update_of_RS s angles hcombo hA hB hX hY hDL hDR hLS hRS,
                    by simp, by simp [hA, hB, hX, hY, hDL, hDR]⟩
                · exact ⟨s, _,
                    update_of_no_action s angles hA hB hX hY hDL hDR hLS hRS,
                    by simp, by simp [hA, hB, hX, hY, hDL, hDR]⟩

/-- One tick of the LEFT_SHOULDER (joint-decrement) branch, as a state
transformer: the state returned by `update` on a snapshot pressing only
LEFT_SHOULDER. -/
def press_left_shoulder (angles : List ℚ) (s : State) : State :=
  match update s angles ⟨["LEFT_SHOULDER"], [0, 0], [(0, 0), (0, 0)]⟩ with
  | .ok (s1, _) => s1
  | .error _ => s

/-- One tick of the RIGHT_SHOULDER (joint-increment) branch, as a state
transformer. -/
def press_right_shoulder (angles : List ℚ) (s : State) : State :=
  match update s angles ⟨["RIGHT_SHOULDER"], [0, 0], [(0, 0), (0, 0)]⟩ with
  | .ok (s1, _) => s1
  | .error _ => s

lemma press_left_shoulder_eq (angles : List ℚ) (c : ℤ × ℤ × ℤ) (j : ℕ) :
    press_left_shoulder angles ⟨c, j⟩ = ⟨c, if j = 1 then 6 else j - 1⟩ := by
  rw [press_left_shoulder,
    update_of_LS ⟨c, j⟩ angles (combination_none_of_not_RS (by decide)) (by decide)
      (by decide) (by decide) (by decide) (by decide) (by decide) (by decide)]

lemma press_right_shoulder_eq (angles : List ℚ) (c : ℤ × ℤ × ℤ) (j : ℕ) :
    press_right_shoulder angles ⟨c, j⟩ = ⟨c, if j = 6 then 1 else j + 1⟩ := by
  rw [press_right_shoulder,
    update_of_RS ⟨c, j⟩ angles (combination_none_of_not_LS (by decide)) (by decide)
      (by decide) (by decide) (by decide) (by decide) (by decide) (by decide)
      (by decide)]

/-- C4: for every starting joint in 1..6, six consecutive joint-decrement
(LEFT_SHOULDER) ticks return `selectedJoint` to its starting value, and so
do six consecutive joint-increment (RIGHT_SHOULDER) ticks; a decrement at
joint 1 wraps to 6 and an increment at joint 6 wraps to 1. -/
theorem C4_joint_ring (angles : List ℚ) (c : ℤ × ℤ × ℤ) (j : ℕ)
    (h1 : 1 ≤ j) (h2 : j ≤ 6) :
    (press_left_shoulder angles)^[6] ⟨c, j⟩ = ⟨c, j⟩ ∧
    (press_right_shoulder angles)^[6] ⟨c, j⟩ = ⟨c, j⟩ ∧
    (press_left_shoulder angles ⟨c, 1⟩).joint = 6 ∧
    (press_right_shoulder angles ⟨c, 6⟩).joint = 1 := by
  have eL : ∀ x : State, (press_left_shoulder angles)^[6] x =
      press_left_shoulder angles (press_left_shoulder angles
        (press_left_shoulder angles (press_left_shoulder angles
          (press_left_shoulder angles (press_left_shoulder angles x))))) :=
    fun x => rfl
  have eR : ∀ x : State, (press_right_shoulder angles)^[6] x =
      press_right_shoulder angles (press_right_shoulder angles
        (press_right_shoulder angles (press_right_shoulder angles
          (press_right_shoulder angles (press_right_shoulder angles x))))) :=
    fun x => rfl
  refine ⟨?_, ?_, ?_, ?_⟩
  · rw [eL]
    interval_cases j <;>
      simp [press_left_shoulder_eq]
  · rw [eR]
    interval_cases j <;>
      simp [press_right_shoulder_eq]
  · simp [press_left_shoulder_eq]
  · simp [press_right_shoulder_eq]

/-- Witness for C4 at starting joint 3. -/
theorem C4_joint_ring_witness :
    (press_left_shoulder [0, 0, 0, 0, 0, 0])^[6] ⟨(0, 255, 0), 3⟩ = ⟨(0, 255, 0), 3⟩ ∧
    (press_right_shoulder [0, 0, 0, 0, 0, 0])^[6] ⟨(0, 255, 0), 3⟩ = ⟨(0, 255, 0), 3⟩ ∧
    (press_left_shoulder [0, 0, 0, 0, 0, 0] ⟨(0, 255, 0), 1⟩).joint = 6 ∧
    (press_right_shoulder [0, 0, 0, 0, 0, 0] ⟨(0, 255, 0), 6⟩).joint = 1 :=
  C4_joint_ring [0, 0, 0, 0, 0, 0] (0, 255, 0) 3 (by decide) (by decide)

/-- C5: with joint 6 selected and the reported angle θ of joint 6 in
[−180, 180], the DPAD_LEFT branch commands θ − 179 plus 360 once when the
difference is below −180, the DPAD_RIGHT branch commands θ + 179 minus 360
once when the sum is above 180, and both issued angles lie in [−180, 180]. -/
theorem C5_joint6_wrap (c : ℤ × ℤ × ℤ) (angles : List ℚ)
    (tr : List ℚ) (st : List (ℚ × ℚ)) (θ : ℚ)
    (hθ : angles.getD 5 0 = θ) (hlo : -180 ≤ θ) (hhi : θ ≤ 180) :
    update ⟨c, 6⟩ angles ⟨["DPAD_LEFT"], tr, st⟩ =
      .ok (⟨c, 6⟩,
        [.send_angle 6 (if θ - 179 < -180 then θ - 179 + 360 else θ - 179) 10]) ∧
    update ⟨c, 6⟩ angles ⟨["DPAD_RIGHT"], tr, st⟩ =
      .ok (⟨c, 6⟩,
        [.send_angle 6 (if 180 < θ + 179 then θ + 179 - 360 else θ + 179) 10]) ∧
    -180 ≤ dpad_left_theta ⟨c, 6⟩ angles ∧ dpad_left_theta ⟨c, 6⟩ angles ≤ 180 ∧
    -180 ≤ dpad_right_theta ⟨c, 6⟩ angles ∧ dpad_right_theta ⟨c, 6⟩ angles ≤ 180 := by
  have hθ2 : angles[5]?.getD 0 = θ := by
    simpa [List.getD] using hθ
  have hdl : dpad_left_theta ⟨c, 6⟩ angles =
      if θ - 179 < -180 then θ - 179 + 360 else θ - 179 := by
    simp [dpad_left_theta, hθ2]
  have hdr : dpad_right_theta ⟨c, 6⟩ angles =
      if 180 < θ + 179 then θ + 179 - 360 else θ + 179 := by
    simp [dpad_right_theta, hθ2]
  refine ⟨?_, ?_, ?_, ?_, ?_, ?_⟩
  · rw [update_of_DL ⟨c, 6⟩ angles (combination_none_of_not_LS (by simp)) (by simp)
      (by simp) (by simp) (by simp) (by simp), hdl]
  · rw [update_of_DR ⟨c, 6⟩ angles (combination_none_of_not_LS (by simp)) (by simp)
      (by simp) (by simp) (by simp) (by simp) (by simp), hdr]
  · rw [hdl]; split_ifs <;> linarith
  · rw [hdl]; split_ifs <;> linarith
  · rw [hdr]; split_ifs <;> linarith
  · rw [hdr]; split_ifs <;> linarith

/-- Witness for C5 at θ = 100 (reported angles `[0,0,0,0,0,100]`):
DPAD_LEFT issues −79 and DPAD_RIGHT issues −81. -/
theorem C5_joint6_wrap_witness :
    update ⟨(0, 255, 0), 6⟩ [0, 0, 0, 0, 0, 100] ⟨["DPAD_LEFT"], [0, 0], [(0, 0), (0, 0)]⟩ =
      .ok (⟨(0, 255, 0), 6⟩,
        [.send_angle 6 (if (100 : ℚ) - 179 < -180 then 100 - 179 + 360 else 100 - 179) 10]) ∧
    update ⟨(0, 255, 0), 6⟩ [0, 0, 0, 0, 0, 100] ⟨["DPAD_RIGHT"], [0, 0], [(0, 0), (0, 0)]⟩ =
      .ok (⟨(0, 255, 0), 6⟩,
        [.send_angle 6 (if (180 : ℚ) < 100 + 179 then 100 + 179 - 360 else 100 + 179) 10]) ∧
    -180 ≤ dpad_left_theta ⟨(0, 255, 0), 6⟩ [0, 0, 0, 0, 0, 100] ∧
    dpad_left_theta ⟨(0, 255, 0), 6⟩ [0, 0, 0, 0, 0, 100] ≤ 180 ∧
    -180 ≤ dpad_right_theta ⟨(0, 255, 0), 6⟩ [0, 0, 0, 0, 0, 100] ∧
    dpad_right_theta ⟨(0, 255, 0), 6⟩ [0, 0, 0, 0, 0, 100] ≤ 180 :=
  C5_joint6_wrap (0, 255, 0) [0, 0, 0, 0, 0, 100] [0, 0] [(0, 0), (0, 0)] 100
    (by norm_num) (by norm_num) (by norm_num)

/-- C6: starting from (0, 255, 0), the first 8 applications of
`next_color` produce exactly (0,223,32), (0,191,64), (0,159,96),
(0,127,128), (0,95,160), (0,63,192), (0,31,224), (0,0,255): each step
decrements the green channel by 32 (clamped at 0) and sets blue to 255
minus the new green value, and after 8 deterministic steps a state with a
zero channel — (0, 0, 255), where both red and green are zero — is
reached. -/
theorem C6_color_advance_sequence :
    next_color^[1] (0, 255, 0) = (0, 223, 32) ∧
    next_color^[2] (0, 255, 0) = (0, 191, 64) ∧
    next_color^[3] (0, 255, 0) = (0, 159, 96) ∧
    next_color^[4] (0, 255, 0) = (0, 127, 128) ∧
    next_color^[5] (0, 255, 0) = (0, 95, 160) ∧
    next_color^[6] (0, 255, 0) = (0, 63, 192) ∧
    next_color^[7] (0, 255, 0) = (0, 31, 224) ∧
    next_color^[8] (0, 255, 0) = (0, 0, 255) ∧
    (next_color^[8] (0, 255, 0)).1 = 0 ∧ (next_color^[8] (0, 255, 0)).2.1 = 0 := by
  decide

/-- The LED color invariant: the three channels sum to 255, each lies in
[0, 255], and at least one channel is zero. -/
def color_invariant (c : ℤ × ℤ × ℤ) : Prop :=
  c.1 + c.2.1 + c.2.2 = 255 ∧
  0 ≤ c.1 ∧ 0 ≤ c.2.1 ∧ 0 ≤ c.2.2 ∧
  c.1 ≤ 255 ∧ c.2.1 ≤ 255 ∧ c.2.2 ≤ 255 ∧
  (c.1 = 0 ∨ c.2.1 = 0 ∨ c.2.2 = 0)

lemma next_color_preserves_invariant {c : ℤ × ℤ × ℤ}
    (h : color_invariant c) : color_invariant (next_color c) := by
  obtain ⟨r, g, b⟩ := c
  simp only [color_invariant, next_color] at h ⊢
  split_ifs with h1 h2 h3 <;> simp_all <;> omega

/-- C10: starting from the initial LED color (0, 255, 0), after any number
of `next_color` applications the channels still sum to 255, each lies in
[0, 255], and at least one channel is zero. -/
theorem C10_color_invariant (n : ℕ) :
    color_invariant (next_color^[n] (0, 255, 0)) := by
  induction n with
  | zero => exact ⟨by decide, by decide, by decide, by decide, by decide, by decide,
      by decide, Or.inl (by decide)⟩
  | succ n ih =>
    rw [Function.iterate_succ_apply']
    exact next_color_preserves_invariant ih

/-- Witness for C3 (amended) at the LEFT_SHOULDER-only snapshot: the update
succeeds, and since none of the six command-issuing buttons is pressed the
command count is not one (it is zero). -/
theorem C3_amended_witness :
    ∃ s1 cmds,
      update ⟨(0, 255, 0), 1⟩ [0, 0, 0, 0, 0, 0]
        ⟨["LEFT_SHOULDER"], [0, 0], [(0, 0), (0, 0)]⟩ = .ok (s1, cmds) ∧
      cmds.length ≤ 1 ∧
      (cmds.length = 1 ↔
        ("A" ∈ ["LEFT_SHOULDER"] ∨ "B" ∈ ["LEFT_SHOULDER"] ∨ "X" ∈ ["LEFT_SHOULDER"] ∨
          "Y" ∈ ["LEFT_SHOULDER"] ∨ "DPAD_LEFT" ∈ ["LEFT_SHOULDER"] ∨
          "DPAD_RIGHT" ∈ ["LEFT_SHOULDER"])) :=
  C3_amended_at_most_one_command ⟨(0, 255, 0), 1⟩ [0, 0, 0, 0, 0, 0]
    ⟨["LEFT_SHOULDER"], [0, 0], [(0, 0), (0, 0)]⟩ (by decide) (by decide)

/-- C7: a BUTTON_RELEASED event for controller index 0 whose button is not
currently recorded in `pressed_button` makes `Joystick_Signal_Adapter.update`
raise `KeyError` (Python's `set.remove` on an absent member): the lost-event
defect is surfaced as an error, not silently absorbed with unchanged state. -/
theorem C7_release_without_press
    (a : Joystick_Signal_Adapter.AdapterState) (b : String)
    (h : b ∉ a.pressed_button) :
    Joystick_Signal_Adapter.update a (.BUTTON_RELEASED 0 b) =
      .error (.KeyError b) := by
  simp [Joystick_Signal_Adapter.update, h]

/-- Witness for C7: releasing "A" on an adapter with no recorded presses
raises `KeyError "A"`. -/
theorem C7_release_without_press_witness :
    Joystick_Signal_Adapter.update ⟨[], [0, 0], [(0, 0), (0, 0)]⟩
      (.BUTTON_RELEASED 0 "A") = .error (.KeyError "A") :=
  C7_release_without_press ⟨[], [0, 0], [(0, 0), (0, 0)]⟩ "A" (by decide)

/-- C8 counterexample: a snapshot published by `notify` is NOT immutable
once published.  Concretely: with the adapter's `pressed_button` stored at
heap index 0 holding the empty set, the published snapshot initially reads
as the empty button set; after the aggregator's subsequent `update` mutates
`pressed_button` in place by pressing "A", the very same already-published
snapshot reads as {"A"} — its content changed, because the dict built by
`notify` holds the same mutable set object, not a copy. -/
theorem C8_counterexample :
    PyHeap.read_buttons ⟨[[]]⟩ (PyHeap.notify_snapshot 0) = [] ∧
    PyHeap.read_buttons (PyHeap.press_mutation ⟨[[]]⟩ 0 "A")
      (PyHeap.notify_snapshot 0) = ["A"] ∧
    PyHeap.read_buttons (PyHeap.press_mutation ⟨[[]]⟩ 0 "A")
      (PyHeap.notify_snapshot 0) ≠
      PyHeap.read_buttons ⟨[[]]⟩ (PyHeap.notify_snapshot 0) := by
  decide

/-- C8 amended: the snapshot published by `notify` shares the Aggregator's
mutable `pressed_button` reference (no copy is made), so every later press
recorded by the Aggregator is visible through any snapshot already
delivered to a listener: reading the published snapshot after the mutation
yields the updated set. -/
theorem C8_amended_snapshot_aliases_state
    (h : PyHeap.Heap) (r : ℕ) (b : String) (hr : r < h.sets.length) :
    PyHeap.read_buttons (PyHeap.press_mutation h r b) (PyHeap.notify_snapshot r) =
      (PyHeap.read_buttons h (PyHeap.notify_snapshot r)).insert b := by
  simp [PyHeap.read_buttons, PyHeap.press_mutation, PyHeap.notify_snapshot,
    List.getD, List.getElem?_set, hr]

/-- Witness for C8 (amended): with {"X"} recorded at heap index 0, a later
press of "A" is visible through the already-published snapshot. -/
theorem C8_amended_witness :
    PyHeap.read_buttons (PyHeap.press_mutation ⟨[["X"]]⟩ 0 "A")
      (PyHeap.notify_snapshot 0) =
      (PyHeap.read_buttons ⟨[["X"]]⟩ (PyHeap.notify_snapshot 0)).insert "A" :=
  C8_amended_snapshot_aliases_state ⟨[["X"]]⟩ 0 "A" (by decide)

/-- C9: for either termination reason — the external `KeyboardInterrupt`
or the adapter's stored in-band signal — `main`'s shutdown trace is exactly:
unregister both listeners, kill both threads, send the SLEEP posture at
speed 50, sleep ten one-second countdown steps (10 s total), then release
all servos; the SLEEP command and the servo release each occur exactly
once. -/
theorem C9_shutdown_sequence (r : Main.TermReason) :
    Main.main_shutdown r =
      [.disregister "Joysticks Detector" "Joystick Signal Adapter",
        .disregister "Joystick Signal Adapter" "Customized MyCobot",
        .kill_thread "Joysticks Detector",
        .kill_thread "Joystick Signal Adapter",
        .send_angles Customized_MyCobot.sleep_posture 50,
        .sleep_seconds 1, .sleep_seconds 1, .sleep_seconds 1, .sleep_seconds 1,
        .sleep_seconds 1, .sleep_seconds 1, .sleep_seconds 1, .sleep_seconds 1,
        .sleep_seconds 1, .sleep_seconds 1,
        .release_all_servos] ∧
    Main.total_sleep (Main.main_shutdown r) = 10 ∧
    (Main.main_shutdown r).count .release_all_servos = 1 ∧
    (Main.main_shutdown r).count (.send_angles Customized_MyCobot.sleep_posture 50) = 1 := by
  cases r <;> simp only [Main.main_shutdown] <;>
    exact ⟨by decide, by decide, by decide, by decide⟩

end JoystickControl
